import Mathlib

/-!
Verification of the `fastapi_mqtt` adapter (`fastapi_mqtt/fastmqtt.py`):
a shallow embedding of its configuration mapping, callback registry and
async offload bridge, together with theorems about the claimed behavior.
-/

namespace FastapiMqtt

/-- Python truthiness of an optional string field: `None` and `""` are falsy. -/
def truthyOptStr : Option String → Bool
  | none => false
  | some s => s != ""

/-- Python truthiness of an optional integer field: `None` and `0` are falsy. -/
def truthyOptNat : Option Nat → Bool
  | none => false
  | some n => n != 0

/-- The Python idiom `x or None` applied to an optional string: an empty
string is normalized to `None`, anything else is kept
(`fastmqtt.py`: `config.username or None`, `config.password or None`). -/
def pyOrNone : Option String → Option String
  | none => none
  | some s => if s == "" then none else some s

/-- Protocol version constants from `gmqtt.mqtt.constants`, as imported by
`fastmqtt.py`. The spec describes the configured protocol version as an
enumerated value, so only these constants occur in a configuration. -/
inductive MqttVersion where
  | v311
  | v50
deriving DecidableEq, Repr

/-- The integer code of a protocol version constant (gmqtt values). -/
def MqttVersion.code : MqttVersion → Nat
  | .v311 => 4
  | .v50 => 5

/-- `gmqtt.mqtt.constants.MQTTv50` -/
def MQTTv50 : Nat := 5

/-- `gmqtt.mqtt.constants.MQTTv311` -/
def MQTTv311 : Nat := 4

/-- Modelled from the spec: the configuration record `MQQTConfig`. Its
defining module `fastapi_mqtt/config.py` is not among the provided sources
(only `fastmqtt.py` reads it), so the field list follows the spec's
configuration surface: host, port, username, password, keepalive, ssl,
version, reconnect_retries, reconnect_delay, will_message_topic,
will_message_payload, will_delay_interval. Optional fields are `Option`s. -/
structure MQQTConfig where
  host : String
  port : Nat
  username : Option String
  password : Option String
  keepalive : Nat
  ssl : Bool
  version : Option MqttVersion
  reconnect_retries : Option Nat
  reconnect_delay : Option Nat
  will_message_topic : Option String
  will_message_payload : Option String
  will_delay_interval : Option Nat
deriving DecidableEq, Repr

/-- `gmqtt.Message` as constructed by `FastMQTT.__init__`: a last-will
message carrying topic, payload and will delay interval. -/
structure Message where
  topic : String
  payload : String
  will_delay_interval : Nat
deriving DecidableEq, Repr

/-- Event callbacks are modelled as fallible transformers of an abstract
program state (`Nat`): applying a handler either yields the next program
state or raises. This is enough to express which handler a slot holds,
what an invocation runs, and whether it raises or changes state. -/
abbrev Handler := Nat → Except String Nat

/-- The default callback the underlying engine (`gmqtt.Client`) installs in
every slot of a fresh client: a no-op that raises nothing and leaves the
program state unchanged. -/
def defaultHandler : Handler := fun s => Except.ok s

/-- The observable state of the `gmqtt.Client` handle: the connection
parameters `FastMQTT.__init__` copies onto it and the four callback slots. -/
structure MQTTClient where
  client_id : String
  clean_session : Bool
  username : Option String
  password : Option String
  host : String
  port : Nat
  keepalive : Nat
  ssl : Bool
  optimistic_acknowledgement : Bool
  will_message : Option Message
  on_connect : Handler
  on_message : Handler
  on_disconnect : Handler
  on_subscribe : Handler

/-- `gmqtt.Client(client_id)`: a fresh client handle. Every callback slot
starts as the engine's default no-op handler; no will message is attached. -/
def MQTTClient.fresh (client_id : String) : MQTTClient :=
  { client_id := client_id
    clean_session := true
    username := none
    password := none
    host := ""
    port := 0
    keepalive := 60
    ssl := false
    optimistic_acknowledgement := true
    will_message := none
    on_connect := defaultHandler
    on_message := defaultHandler
    on_disconnect := defaultHandler
    on_subscribe := defaultHandler }

/-- The adapter instance: the client handle, the configuration record, and
the identities of the worker pool (`ThreadPoolExecutor()`) and event loop
(`asyncio.get_event_loop()`) stored at construction. -/
structure FastMQTT where
  client : MQTTClient
  config : MQQTConfig
  executor : Nat
  loop : Nat

/-- The last-will message `FastMQTT.__init__` attaches to the client handle:
when `config.will_message_topic and config.will_message_payload and
config.will_delay_interval` is truthy it assigns
`Message(topic, payload, will_delay_interval)` to `self.client._will_message`;
otherwise the slot keeps the fresh client's value `None`. -/
def MQQTConfig.will_message (config : MQQTConfig) : Option Message :=
  if truthyOptStr config.will_message_topic &&
     truthyOptStr config.will_message_payload &&
     truthyOptNat config.will_delay_interval then
    some (Message.mk (config.will_message_topic.getD "")
      (config.will_message_payload.getD "") (config.will_delay_interval.getD 0))
  else none

/-- `FastMQTT.__init__(config, client_id=..., clean_session=...,
optimistic_acknowledgement=...)`: builds a fresh client, copies the
connection parameters from the configuration (normalizing credentials with
`or None`), attaches the last-will message when all three of its fields are
truthy, and stores the executor and loop. -/
def FastMQTT.init (config : MQQTConfig) (client_id : String) (clean_session : Bool)
    (optimistic_acknowledgement : Bool) (executor : Nat) (loop : Nat) : FastMQTT :=
  let c := MQTTClient.fresh client_id
  let c := { c with
    clean_session := clean_session
    username := pyOrNone config.username
    password := pyOrNone config.password
    host := config.host
    port := config.port
    keepalive := config.keepalive
    ssl := config.ssl
    optimistic_acknowledgement := optimistic_acknowledgement
    will_message := config.will_message }
  { client := c, config := config, executor := executor, loop := loop }

/-- The calls `FastMQTT.connection` can issue against the client handle. -/
inductive ClientCall where
  | set_auth_credentials (username : String) (password : Option String)
  | set_config_reconnect_retries (n : Nat)
  | set_config_reconnect_delay (n : Nat)
  | connect (host : String) (port : Nat) (ssl : Bool) (keepalive : Nat) (version : Nat)
deriving DecidableEq, Repr

/-- `FastMQTT.__set_connetion_config`: issues `set_config(reconnect_retries=...)`
when `config.reconnect_retries` is truthy and `set_config(reconnect_delay=...)`
when `config.reconnect_delay` is truthy, independently. -/
def FastMQTT.set_connetion_config (m : FastMQTT) : List ClientCall :=
  (if truthyOptNat m.config.reconnect_retries then
    [ClientCall.set_config_reconnect_retries (m.config.reconnect_retries.getD 0)]
  else []) ++
  (if truthyOptNat m.config.reconnect_delay then
    [ClientCall.set_config_reconnect_delay (m.config.reconnect_delay.getD 0)]
  else [])

/-- `version = self.config.version or MQTTv50`: Python `or` on the version's
integer code, falling back to `MQTTv50` when the version is unset. -/
def FastMQTT.version_used (m : FastMQTT) : Nat :=
  match m.config.version with
  | none => MQTTv50
  | some v => if v.code != 0 then v.code else MQTTv50

/-- `FastMQTT.connection`: the ordered trace of calls issued against the
client handle. `set_auth_credentials` is issued first when
`self.client._username` is truthy, then the reconnect configuration calls,
then `connect(host, port, ssl, keepalive, version)`. -/
def FastMQTT.connection (m : FastMQTT) : List ClientCall :=
  (if truthyOptStr m.client.username then
    [ClientCall.set_auth_credentials (m.client.username.getD "") m.client.password]
  else []) ++
  m.set_connetion_config ++
  [ClientCall.connect m.client.host m.client.port m.client.ssl m.client.keepalive
    m.version_used]

/-- The synchronous client calls the offload bridge wraps with
`functools.partial`. -/
inductive SyncCall where
  | publish (topic : String) (payload : Option String) (qos : Nat) (retain : Bool)
  | unsubscribe (topic : String)
deriving DecidableEq, Repr

/-- A successful offload: which event loop performed `run_in_executor`, which
worker pool the wrapped call was submitted to, and the wrapped call itself.
Awaiting the returned future yields the wrapped call's own result. -/
structure Dispatch where
  loop : Nat
  pool : Nat
  call : SyncCall
deriving DecidableEq, Repr

/-- Python runtime errors the embedded methods can raise. -/
inductive PyErr where
  | nameError (name : String)
deriving DecidableEq, Repr

/-- The names bound at module level in `fastmqtt.py`: its imports and
top-level definitions. The body of `publish` reads a bare name `loop`,
which Python resolves against this set after the function's locals
(`self`, `message_or_topic`, `payload`, `qos`, `retain`, `kwargs`, `func`,
none of which is `loop`). -/
def moduleGlobals : List String :=
  ["os", "ssl", "uuid", "asyncio", "SSLContext", "partial", "ThreadPoolExecutor",
   "Any", "Callable", "Dict", "Optional", "Type", "Union",
   "Message", "MQTTClient", "MQTTv311", "MQTTv50", "MQQTConfig",
   "logger", "log_info", "logging", "FastMQTT"]

/-- `FastMQTT.publish(message_or_topic, payload, qos, retain)`: builds
`func = partial(self.client.publish, message_or_topic, payload=payload,
qos=qos, retain=retain)` and then evaluates
`await loop.run_in_executor(self.executor, func)`. The dispatching object
is the bare name `loop`, not `self.loop`; if no such module global exists,
evaluating the name raises `NameError` before anything is submitted to the
executor. (The first branch, in which a module global `loop` would perform
the dispatch, is unreachable for the module as written.) -/
def FastMQTT.publish (m : FastMQTT) (message_or_topic : String) (payload : Option String)
    (qos : Nat) (retain : Bool) : Except PyErr Dispatch :=
  let func := SyncCall.publish message_or_topic payload qos retain
  if moduleGlobals.contains "loop" then
    Except.ok { loop := 0, pool := m.executor, call := func }
  else
    Except.error (PyErr.nameError "loop")

/-- `FastMQTT.unsubscribe(topic)`: builds
`func = partial(self.client.unsubscribe, topic)` and evaluates
`await self.loop.run_in_executor(self.executor, func)`: the call is
submitted to the adapter's own executor through the adapter's own loop. -/
def FastMQTT.unsubscribe (m : FastMQTT) (topic : String) : Except PyErr Dispatch :=
  let func := SyncCall.unsubscribe topic
  Except.ok { loop := m.loop, pool := m.executor, call := func }

/-- The four event kinds of the callback registry. -/
inductive EventKind where
  | connect
  | message
  | disconnect
  | subscribe
deriving DecidableEq, Repr

/-- The callback slot on the client handle holding the handler for an event
kind. -/
def MQTTClient.slot (c : MQTTClient) : EventKind → Handler
  | .connect => c.on_connect
  | .message => c.on_message
  | .disconnect => c.on_disconnect
  | .subscribe => c.on_subscribe

/-- The inner `connect_handler` of `FastMQTT.on_connect`: stores the handler
in `self.client.on_connect` and returns the handler. -/
def FastMQTT.connect_handler (m : FastMQTT) (handler : Handler) : FastMQTT × Handler :=
  ({ m with client := { m.client with on_connect := handler } }, handler)

/-- The inner `message_handler` of `FastMQTT.on_message`: stores the handler
in `self.client.on_message` and returns the handler. -/
def FastMQTT.message_handler (m : FastMQTT) (handler : Handler) : FastMQTT × Handler :=
  ({ m with client := { m.client with on_message := handler } }, handler)

/-- The inner `disconnect_handler` of `FastMQTT.on_disconnect`: stores the
handler in `self.client.on_disconnect` and returns the handler. -/
def FastMQTT.disconnect_handler (m : FastMQTT) (handler : Handler) : FastMQTT × Handler :=
  ({ m with client := { m.client with on_disconnect := handler } }, handler)

/-- The inner `subscribe_handler` of `FastMQTT.on_subscribe`: stores the
handler in `self.client.on_subscribe` and returns the handler. -/
def FastMQTT.subscribe_handler (m : FastMQTT) (handler : Handler) : FastMQTT × Handler :=
  ({ m with client := { m.client with on_subscribe := handler } }, handler)

/-- Registration by event kind: dispatches to the matching decorator body
(`on_connect`, `on_message`, `on_disconnect`, `on_subscribe`). -/
def FastMQTT.register (m : FastMQTT) : EventKind → Handler → FastMQTT × Handler
  | .connect => m.connect_handler
  | .message => m.message_handler
  | .disconnect => m.disconnect_handler
  | .subscribe => m.subscribe_handler

/-- The underlying engine firing an event of kind `k`: it invokes whatever
handler sits in that kind's slot on the client handle, on the current
abstract program state. -/
def FastMQTT.invokeEvent (m : FastMQTT) (k : EventKind) (s : Nat) : Except String Nat :=
  m.client.slot k s

/-- Everything in the adapter state except the four callback slots: the
configuration record, the worker pool and loop identities, and every derived
connection parameter on the client handle. -/
structure Frame where
  config : MQQTConfig
  executor : Nat
  loop : Nat
  client_id : String
  clean_session : Bool
  username : Option String
  password : Option String
  host : String
  port : Nat
  keepalive : Nat
  ssl : Bool
  optimistic_acknowledgement : Bool
  will_message : Option Message
deriving DecidableEq, Repr

/-- The slot-free view of an adapter state. -/
def FastMQTT.frame (m : FastMQTT) : Frame :=
  { config := m.config
    executor := m.executor
    loop := m.loop
    client_id := m.client.client_id
    clean_session := m.client.clean_session
    username := m.client.username
    password := m.client.password
    host := m.client.host
    port := m.client.port
    keepalive := m.client.keepalive
    ssl := m.client.ssl
    optimistic_acknowledgement := m.client.optimistic_acknowledgement
    will_message := m.client.will_message }

/-- A concrete configuration with only host and port set: the spec's
anonymous-localhost scenario. -/
def baseConfig : MQQTConfig :=
  { host := "localhost"
    port := 1883
    username := none
    password := none
    keepalive := 60
    ssl := false
    version := none
    reconnect_retries := none
    reconnect_delay := none
    will_message_topic := none
    will_message_payload := none
    will_delay_interval := none }

/-- C1: calling `publish` evaluates the unbound module name `loop` and
raises `NameError` before the wrapped `client.publish` call reaches the
executor, while `unsubscribe` dispatches its wrapped call through the
adapter's own loop to the adapter's own worker pool. This exhibits the
divergence from the claim on the example application's own publish call. -/
theorem publish_raises_name_error_before_dispatch :
    (FastMQTT.init baseConfig "cid" true true 7 3).publish "/mqtt"
        (some "Hello from Fastapi") 0 false
      = Except.error (PyErr.nameError "loop") ∧
    (FastMQTT.init baseConfig "cid" true true 7 3).unsubscribe "/mqtt"
      = Except.ok (Dispatch.mk 3 7 (SyncCall.unsubscribe "/mqtt")) := by
  exact ⟨rfl, rfl⟩

/-- C3: on a freshly constructed adapter, with no handler registered by the
user, firing any of the four event kinds runs the engine's default no-op
handler: it does not raise and returns the program state unchanged. -/
theorem unregistered_event_invocation_is_noop (cfg : MQQTConfig) (cid : String)
    (cs oa : Bool) (ex lp : Nat) (k : EventKind) (s : Nat) :
    (FastMQTT.init cfg cid cs oa ex lp).invokeEvent k s = Except.ok s := by
  cases k <;> rfl

/-- C5: registering a handler and then a second handler for the same event
kind stores only the second one (registration is total, so no error is
raised), and firing that event kind afterwards runs exactly the second
handler. -/
theorem second_registration_overwrites (m : FastMQTT) (k : EventKind)
    (h1 h2 : Handler) (s : Nat) :
    (((m.register k h1).1.register k) h2).1.client.slot k = h2 ∧
    (((m.register k h1).1.register k) h2).1.invokeEvent k s = h2 s := by
  cases k <;> exact ⟨rfl, rfl⟩

/-- C8: each registration operation hands back the very same handler
function it was given. -/
theorem registration_returns_same_handler (m : FastMQTT) (k : EventKind)
    (h : Handler) :
    (m.register k h).2 = h := by
  cases k <;> rfl

/-- C10: registering a handler for one event kind changes only that kind's
slot: every other kind's slot and the whole slot-free frame (configuration,
executor, loop, and all derived connection parameters) are unchanged. -/
theorem registration_frame_preservation (m : FastMQTT) (k j : EventKind)
    (h : Handler) (hne : j ≠ k) :
    (m.register k h).1.client.slot j = m.client.slot j ∧
    (m.register k h).1.frame = m.frame := by
  cases k <;> cases j <;> first
    | exact absurd rfl hne
    | exact ⟨rfl, rfl⟩

/-- Witness for C10 at a concrete adapter, kinds and handler. -/
theorem registration_frame_preservation_witness :
    EventKind.connect ≠ EventKind.message ∧
    (((FastMQTT.init baseConfig "cid" true true 0 0).register EventKind.message
        defaultHandler).1.client.slot EventKind.connect
      = (FastMQTT.init baseConfig "cid" true true 0 0).client.slot EventKind.connect ∧
    ((FastMQTT.init baseConfig "cid" true true 0 0).register EventKind.message
        defaultHandler).1.frame
      = (FastMQTT.init baseConfig "cid" true true 0 0).frame) :=
  ⟨by decide,
   registration_frame_preservation (FastMQTT.init baseConfig "cid" true true 0 0)
     EventKind.message EventKind.connect defaultHandler (by decide)⟩

theorem truthyOptStr_pyOrNone (x : Option String) :
    truthyOptStr (pyOrNone x) = truthyOptStr x := by
  cases x with
  | none => rfl
  | some s =>
    by_cases h : s = ""
    · subst h; rfl
    · simp [pyOrNone, truthyOptStr, h]

theorem pyOrNone_eq_of_truthy (x : Option String) (h : truthyOptStr x = true) :
    pyOrNone x = x := by
  cases x with
  | none => rfl
  | some s =>
    simp only [truthyOptStr, bne_iff_ne, ne_eq] at h
    simp [pyOrNone, h]

theorem init_client_username (cfg : MQQTConfig) (cid : String) (cs oa : Bool)
    (ex lp : Nat) :
    (FastMQTT.init cfg cid cs oa ex lp).client.username = pyOrNone cfg.username := rfl

theorem init_client_password (cfg : MQQTConfig) (cid : String) (cs oa : Bool)
    (ex lp : Nat) :
    (FastMQTT.init cfg cid cs oa ex lp).client.password = pyOrNone cfg.password := rfl

/-- The trace of `connection` always ends with the `connect` call. -/
theorem connection_getLast (m : FastMQTT) :
    m.connection.getLast? = some (ClientCall.connect m.client.host m.client.port
      m.client.ssl m.client.keepalive m.version_used) := by
  unfold FastMQTT.connection
  exact List.getLast?_concat _

/-- When the stored username is truthy, the credential call heads the trace. -/
theorem connection_head_of_truthy (m : FastMQTT)
    (h : truthyOptStr m.client.username = true) :
    m.connection.head? = some (ClientCall.set_auth_credentials
      (m.client.username.getD "") m.client.password) := by
  unfold FastMQTT.connection
  rw [h]
  rfl

/-- When the stored username is not truthy, no credential call occurs in the
trace. -/
theorem no_cred_call_of_not_truthy (m : FastMQTT)
    (h : truthyOptStr m.client.username = false) (u : String) (p : Option String) :
    ClientCall.set_auth_credentials u p ∉ m.connection := by
  unfold FastMQTT.connection FastMQTT.set_connetion_config
  rw [h]
  simp only [Bool.false_eq_true, if_false, List.nil_append, List.mem_append,
    List.mem_singleton]
  rintro (hmem | hmem)
  · rcases hmem with hmem | hmem <;> split at hmem <;> simp_all
  · simp_all

/-- C4: for a configuration with username and password set (to usable,
non-empty values; empty strings are normalized away at construction, see the
empty-credential theorem), `connection` issues `set_auth_credentials` with
exactly those credentials as its first call and `connect` as its last call,
so credentials are set before connecting; for a configuration with no
username, no credential call occurs anywhere in the trace. -/
theorem credentials_set_before_connect (cfg : MQQTConfig) (cid : String)
    (cs oa : Bool) (ex lp : Nat) :
    (truthyOptStr cfg.username = true → truthyOptStr cfg.password = true →
      (FastMQTT.init cfg cid cs oa ex lp).connection.head?
        = some (ClientCall.set_auth_credentials (cfg.username.getD "") cfg.password) ∧
      (FastMQTT.init cfg cid cs oa ex lp).connection.getLast?
        = some (ClientCall.connect cfg.host cfg.port cfg.ssl cfg.keepalive
            (FastMQTT.init cfg cid cs oa ex lp).version_used)) ∧
    (cfg.username = none →
      ∀ u p, ClientCall.set_auth_credentials u p ∉
        (FastMQTT.init cfg cid cs oa ex lp).connection) := by
  constructor
  · intro hu hp
    have h1 : truthyOptStr (FastMQTT.init cfg cid cs oa ex lp).client.username = true := by
      rw [init_client_username, truthyOptStr_pyOrNone]; exact hu
    constructor
    · rw [connection_head_of_truthy _ h1, init_client_username, init_client_password,
        pyOrNone_eq_of_truthy _ hu, pyOrNone_eq_of_truthy _ hp]
    · rw [connection_getLast]; rfl
  · intro hnone u p
    have h0 : truthyOptStr (FastMQTT.init cfg cid cs oa ex lp).client.username = false := by
      rw [init_client_username, hnone]; rfl
    exact no_cred_call_of_not_truthy _ h0 u p

/-- A concrete configuration carrying non-empty credentials. -/
def credConfig : MQQTConfig :=
  { baseConfig with username := some "user", password := some "pass" }

/-- Witness for C4 on a concrete credentialed configuration. -/
theorem credentials_set_before_connect_witness :
    truthyOptStr credConfig.username = true ∧
    truthyOptStr credConfig.password = true ∧
    ((FastMQTT.init credConfig "cid" true true 0 0).connection.head?
      = some (ClientCall.set_auth_credentials (credConfig.username.getD "")
          credConfig.password) ∧
    (FastMQTT.init credConfig "cid" true true 0 0).connection.getLast?
      = some (ClientCall.connect credConfig.host credConfig.port credConfig.ssl
          credConfig.keepalive (FastMQTT.init credConfig "cid" true true 0 0).version_used)) :=
  ⟨rfl, rfl,
   (credentials_set_before_connect credConfig "cid" true true 0 0).1 rfl rfl⟩

/-- C9: a configuration whose username is the empty string is normalized to
an absent username at construction, `connection` then makes no credential
call (anonymous connection), and an empty-string password is likewise
normalized to an absent password. -/
theorem empty_string_credentials_anonymous (cfg : MQQTConfig) (cid : String)
    (cs oa : Bool) (ex lp : Nat) (hu : cfg.username = some "") :
    (FastMQTT.init cfg cid cs oa ex lp).client.username = none ∧
    (∀ u p, ClientCall.set_auth_credentials u p ∉
      (FastMQTT.init cfg cid cs oa ex lp).connection) ∧
    (cfg.password = some "" →
      (FastMQTT.init cfg cid cs oa ex lp).client.password = none) := by
  have hnorm : (FastMQTT.init cfg cid cs oa ex lp).client.username = none := by
    rw [init_client_username, hu]; rfl
  refine ⟨hnorm, ?_, ?_⟩
  · intro u p
    apply no_cred_call_of_not_truthy
    rw [hnorm]; rfl
  · intro hp
    rw [init_client_password, hp]; rfl

/-- A concrete configuration supplying empty-string credentials. -/
def emptyCredConfig : MQQTConfig :=
  { baseConfig with username := some "", password := some "" }

/-- Witness for C9 on a concrete configuration with empty-string
credentials. -/
theorem empty_string_credentials_anonymous_witness :
    emptyCredConfig.username = some "" ∧
    (FastMQTT.init emptyCredConfig "cid" true true 0 0).client.username = none ∧
    ClientCall.set_auth_credentials "" (some "") ∉
      (FastMQTT.init emptyCredConfig "cid" true true 0 0).connection ∧
    (FastMQTT.init emptyCredConfig "cid" true true 0 0).client.password = none :=
  ⟨rfl,
   (empty_string_credentials_anonymous emptyCredConfig "cid" true true 0 0 rfl).1,
   (empty_string_credentials_anonymous emptyCredConfig "cid" true true 0 0 rfl).2.1 "" (some ""),
   (empty_string_credentials_anonymous emptyCredConfig "cid" true true 0 0 rfl).2.2 rfl⟩

theorem init_config (cfg : MQQTConfig) (cid : String) (cs oa : Bool) (ex lp : Nat) :
    (FastMQTT.init cfg cid cs oa ex lp).config = cfg := rfl

/-- Dropping the final `connect` call leaves the credential and reconnect
configuration calls, in order. -/
theorem connection_dropLast (m : FastMQTT) :
    m.connection.dropLast
      = (if truthyOptStr m.client.username then
          [ClientCall.set_auth_credentials (m.client.username.getD "") m.client.password]
        else []) ++ m.set_connetion_config := by
  unfold FastMQTT.connection
  exact List.dropLast_concat

/-- Every call in a `connection` trace is the credential call (under a
truthy username), one of the two reconnect configuration calls (under the
corresponding truthy field), or the final `connect` call. -/
theorem mem_connection_elim (m : FastMQTT) (c : ClientCall) (hc : c ∈ m.connection) :
    (truthyOptStr m.client.username = true ∧
      c = ClientCall.set_auth_credentials (m.client.username.getD "") m.client.password) ∨
    (truthyOptNat m.config.reconnect_retries = true ∧
      c = ClientCall.set_config_reconnect_retries (m.config.reconnect_retries.getD 0)) ∨
    (truthyOptNat m.config.reconnect_delay = true ∧
      c = ClientCall.set_config_reconnect_delay (m.config.reconnect_delay.getD 0)) ∨
    c = ClientCall.connect m.client.host m.client.port m.client.ssl m.client.keepalive
      m.version_used := by
  unfold FastMQTT.connection FastMQTT.set_connetion_config at hc
  rcases List.mem_append.1 hc with h | h
  · rcases List.mem_append.1 h with h | h
    · split at h
      · exact Or.inl ⟨by assumption, List.mem_singleton.1 h⟩
      · simp at h
    · rcases List.mem_append.1 h with h | h
      · split at h
        · exact Or.inr (Or.inl ⟨by assumption, List.mem_singleton.1 h⟩)
        · simp at h
      · split at h
        · exact Or.inr (Or.inr (Or.inl ⟨by assumption, List.mem_singleton.1 h⟩))
        · simp at h
  · exact Or.inr (Or.inr (Or.inr (List.mem_singleton.1 h)))

/-- C7: with no protocol version configured, the final `connect` call uses
the constant `MQTTv50`; with a configured version, its integer code is used
instead. -/
theorem connect_version_default_or_specified (cfg : MQQTConfig) (cid : String)
    (cs oa : Bool) (ex lp : Nat) :
    (cfg.version = none →
      (FastMQTT.init cfg cid cs oa ex lp).connection.getLast?
        = some (ClientCall.connect cfg.host cfg.port cfg.ssl cfg.keepalive MQTTv50)) ∧
    (∀ v, cfg.version = some v →
      (FastMQTT.init cfg cid cs oa ex lp).connection.getLast?
        = some (ClientCall.connect cfg.host cfg.port cfg.ssl cfg.keepalive
            (MqttVersion.code v))) := by
  constructor
  · intro h
    have hv : (FastMQTT.init cfg cid cs oa ex lp).version_used = MQTTv50 := by
      show (match cfg.version with
        | none => MQTTv50
        | some v => if v.code != 0 then v.code else MQTTv50) = MQTTv50
      rw [h]
    rw [connection_getLast, hv]; rfl
  · intro v h
    have hv : (FastMQTT.init cfg cid cs oa ex lp).version_used = v.code := by
      show (match cfg.version with
        | none => MQTTv50
        | some w => if w.code != 0 then w.code else MQTTv50) = v.code
      rw [h]
      cases v <;> rfl
    rw [connection_getLast, hv]; rfl

/-- A concrete configuration pinning the older protocol version. -/
def v311Config : MQQTConfig :=
  { baseConfig with version := some MqttVersion.v311 }

/-- Witness for C7: the anonymous-localhost configuration connects with
`MQTTv50`; a configuration pinning v3.1.1 connects with its code. -/
theorem connect_version_default_or_specified_witness :
    baseConfig.version = none ∧
    (FastMQTT.init baseConfig "cid" true true 0 0).connection.getLast?
      = some (ClientCall.connect baseConfig.host baseConfig.port baseConfig.ssl
          baseConfig.keepalive MQTTv50) ∧
    v311Config.version = some MqttVersion.v311 ∧
    (FastMQTT.init v311Config "cid" true true 0 0).connection.getLast?
      = some (ClientCall.connect v311Config.host v311Config.port v311Config.ssl
          v311Config.keepalive (MqttVersion.code MqttVersion.v311)) :=
  ⟨rfl,
   (connect_version_default_or_specified baseConfig "cid" true true 0 0).1 rfl,
   rfl,
   (connect_version_default_or_specified v311Config "cid" true true 0 0).2
     MqttVersion.v311 rfl⟩

/-- A concrete configuration with a present, zero reconnect retry count. -/
def zeroRetriesConfig : MQQTConfig :=
  { baseConfig with reconnect_retries := some 0 }

/-- C6 counterexample: with `reconnect_retries` present but equal to `0`,
the trace contains no `set_config` call at all: the present value is not
applied to the client's reconnect policy. -/
theorem reconnect_retries_present_but_not_applied :
    zeroRetriesConfig.reconnect_retries.isSome = true ∧
    (FastMQTT.init zeroRetriesConfig "cid" true true 0 0).connection
      = [ClientCall.connect "localhost" 1883 false 60 MQTTv50] :=
  ⟨rfl, rfl⟩

/-- C6 as amended: a present and nonzero reconnect retry count or reconnect
delay is applied by a `set_config` call issued before the final `connect`
call (each field checked independently); an absent or zero value produces no
`set_config` call for that field. -/
theorem reconnect_policy_applied_before_connect (cfg : MQQTConfig) (cid : String)
    (cs oa : Bool) (ex lp : Nat) (n : Nat) :
    (cfg.reconnect_retries = some n → n ≠ 0 →
      ClientCall.set_config_reconnect_retries n ∈
        (FastMQTT.init cfg cid cs oa ex lp).connection.dropLast) ∧
    ((cfg.reconnect_retries = none ∨ cfg.reconnect_retries = some 0) →
      ∀ j, ClientCall.set_config_reconnect_retries j ∉
        (FastMQTT.init cfg cid cs oa ex lp).connection) ∧
    (cfg.reconnect_delay = some n → n ≠ 0 →
      ClientCall.set_config_reconnect_delay n ∈
        (FastMQTT.init cfg cid cs oa ex lp).connection.dropLast) ∧
    ((cfg.reconnect_delay = none ∨ cfg.reconnect_delay = some 0) →
      ∀ j, ClientCall.set_config_reconnect_delay j ∉
        (FastMQTT.init cfg cid cs oa ex lp).connection) ∧
    (FastMQTT.init cfg cid cs oa ex lp).connection.getLast?
      = some (ClientCall.connect cfg.host cfg.port cfg.ssl cfg.keepalive
          (FastMQTT.init cfg cid cs oa ex lp).version_used) := by
  refine ⟨?_, ?_, ?_, ?_, ?_⟩
  · intro hr hn
    rw [connection_dropLast]
    apply List.mem_append_right
    unfold FastMQTT.set_connetion_config
    rw [init_config, hr]
    have ht : truthyOptNat (some n) = true := by simp [truthyOptNat, hn]
    rw [ht]
    simp
  · intro hr j hmem
    rcases mem_connection_elim _ _ hmem with ⟨_, he⟩ | ⟨ht, _⟩ | ⟨_, he⟩ | he
    · simp at he
    · rw [init_config] at ht
      rcases hr with hr | hr <;> rw [hr] at ht <;> simp [truthyOptNat] at ht
    · simp at he
    · simp at he
  · intro hr hn
    rw [connection_dropLast]
    apply List.mem_append_right
    unfold FastMQTT.set_connetion_config
    rw [init_config, hr]
    have ht : truthyOptNat (some n) = true := by simp [truthyOptNat, hn]
    rw [ht]
    split <;> simp
  · intro hr j hmem
    rcases mem_connection_elim _ _ hmem with ⟨_, he⟩ | ⟨_, he⟩ | ⟨ht, _⟩ | he
    · simp at he
    · simp at he
    · rw [init_config] at ht
      rcases hr with hr | hr <;> rw [hr] at ht <;> simp [truthyOptNat] at ht
    · simp at he
  · rw [connection_getLast]; rfl

/-- A concrete configuration with a nonzero retry count and no delay. -/
def threeRetriesConfig : MQQTConfig :=
  { baseConfig with reconnect_retries := some 3 }

/-- Witness for the amended C6 on a concrete configuration with three
retries and an absent delay. -/
theorem reconnect_policy_applied_before_connect_witness :
    threeRetriesConfig.reconnect_retries = some 3 ∧
    (3 : Nat) ≠ 0 ∧
    ClientCall.set_config_reconnect_retries 3 ∈
      (FastMQTT.init threeRetriesConfig "cid" true true 0 0).connection.dropLast ∧
    (ClientCall.set_config_reconnect_delay 3 ∉
      (FastMQTT.init threeRetriesConfig "cid" true true 0 0).connection) ∧
    (FastMQTT.init threeRetriesConfig "cid" true true 0 0).connection.getLast?
      = some (ClientCall.connect threeRetriesConfig.host threeRetriesConfig.port
          threeRetriesConfig.ssl threeRetriesConfig.keepalive
          (FastMQTT.init threeRetriesConfig "cid" true true 0 0).version_used) :=
  ⟨rfl, by decide,
   (reconnect_policy_applied_before_connect threeRetriesConfig "cid" true true 0 0 3).1
     rfl (by decide),
   (reconnect_policy_applied_before_connect threeRetriesConfig "cid" true true 0 0 3).2.2.2.1
     (Or.inl rfl) 3,
   (reconnect_policy_applied_before_connect threeRetriesConfig "cid" true true 0 0 3).2.2.2.2⟩

/-- A concrete configuration with all three last-will fields set and a zero
will delay interval. -/
def willDelayZeroConfig : MQQTConfig :=
  { baseConfig with
    will_message_topic := some "t"
    will_message_payload := some "p"
    will_delay_interval := some 0 }

/-- C2 counterexample: all three last-will fields are set, yet construction
attaches no last-will message, because the zero delay interval is falsy. -/
theorem will_fields_all_set_but_not_attached :
    willDelayZeroConfig.will_message_topic.isSome = true ∧
    willDelayZeroConfig.will_message_payload.isSome = true ∧
    willDelayZeroConfig.will_delay_interval.isSome = true ∧
    (FastMQTT.init willDelayZeroConfig "cid" true true 0 0).client.will_message = none :=
  ⟨rfl, rfl, rfl, rfl⟩

/-- C2 as amended: a last-will message is attached at construction if and
only if all three last-will fields are set to truthy values (non-empty topic,
non-empty payload, nonzero delay interval), and when attached it carries
exactly those three values. -/
theorem will_message_attached_iff_truthy (cfg : MQQTConfig) (cid : String)
    (cs oa : Bool) (ex lp : Nat) (t p : String) (d : Nat) :
    (FastMQTT.init cfg cid cs oa ex lp).client.will_message = some (Message.mk t p d)
      ↔ cfg.will_message_topic = some t ∧ cfg.will_message_payload = some p ∧
        cfg.will_delay_interval = some d ∧ t ≠ "" ∧ p ≠ "" ∧ d ≠ 0 := by
  have hw : (FastMQTT.init cfg cid cs oa ex lp).client.will_message
      = cfg.will_message := rfl
  rw [hw]
  unfold MQQTConfig.will_message
  rcases htop : cfg.will_message_topic with _ | t0 <;>
    rcases hpay : cfg.will_message_payload with _ | p0 <;>
      rcases hdel : cfg.will_delay_interval with _ | d0 <;>
        simp only [truthyOptStr, truthyOptNat, Option.getD_some, Option.getD_none,
          Bool.false_and, Bool.and_false, Bool.true_and, Bool.and_true, if_false,
          Bool.false_eq_true, reduceIte, Option.some.injEq, reduceCtorEq,
          false_and, and_false] <;>
      try simp
  constructor
  · rintro ⟨⟨⟨hte, hpe⟩, hde⟩, rfl, rfl, rfl⟩
    exact ⟨rfl, rfl, rfl, hte, hpe, hde⟩
  · rintro ⟨rfl, rfl, rfl, hte, hpe, hde⟩
    exact ⟨⟨⟨hte, hpe⟩, hde⟩, rfl, rfl, rfl⟩

end FastapiMqtt
